import Mathlib

/-!
Shallow embedding of the Real Estate CRM (src/app.py, Flask + SQLAlchemy)
and verification of its specification claims.

Modelling conventions:
* SQLAlchemy tables become Lean structures; the database session becomes an
  explicit `CRMState` record of lists of rows, threaded through each route.
* Python `float` columns are modelled as `Rat` (exact arithmetic); `datetime.date`
  as `CalDate` (year/month/day); `datetime.datetime` timestamps as `Nat`.
* Nullable columns are `Option`; columns the routes always populate are plain.
* Route handlers become pure functions `CRMState → ... → CRMState × Outcome`.
  `flash`+redirect failure paths become `Outcome` values carrying the flashed
  message; `get_or_404` becomes `Outcome.notFound`.
* `current_user` (ambient Flask-Login context) becomes an explicit `actor : User`
  argument; routes under `@login_required` are modelled only for authenticated
  actors, so the `current_user.is_authenticated` guard inside `log_activity`
  is satisfied.
* Database autoincrement ids are modelled as `freshId` (max existing id + 1).
* Display-only columns that no claim depends on (avatar_color, image_url,
  bedrooms, bathrooms, sqft, lot_size, year_built, features, created_at /
  updated_at timestamps, ip_address) are elided from the structures; result
  orderings by `created_at` in listings are likewise elided where only
  membership is at stake (noted per definition).
-/

/-- Calendar date, the model of Python `datetime.date` (used for
`Deal.closing_date` and `User.hire_date`). -/
structure CalDate where
  year : Nat
  month : Nat
  day : Nat
deriving DecidableEq

/-- Lexicographic `≤` on calendar dates, the model of SQL date comparison
`Deal.closing_date >= start_date.date()` in the reports route. -/
def dateLe (a b : CalDate) : Bool :=
  decide (a.year < b.year ∨ (a.year = b.year ∧
    (a.month < b.month ∨ (a.month = b.month ∧ a.day ≤ b.day))))

/-- Lexicographic `<` on calendar dates, the model of SQL
`Deal.closing_date < end_date.date()`. -/
def dateLt (a b : CalDate) : Bool :=
  decide (a.year < b.year ∨ (a.year = b.year ∧
    (a.month < b.month ∨ (a.month = b.month ∧ a.day < b.day))))

/-- Staff account (`class User`, src/app.py lines 24-62). -/
structure User where
  id : Nat
  username : String
  email : String
  password_hash : String
  role : String            -- admin, manager, staff
  first_name : String
  last_name : String
  phone : String
  position : String
  hire_date : Option CalDate
  commission_rate : Rat
  is_active : Bool
  created_by : Option Nat
deriving DecidableEq

/-- Model of `User.is_admin` (src/app.py line 58). -/
def User.is_admin (u : User) : Bool := u.role == "admin"

/-- Client row (`class Client`, src/app.py lines 65-88). -/
structure Client where
  id : Nat
  first_name : String
  last_name : String
  email : String
  phone : String
  client_type : String     -- buyer, seller, both
  status : String          -- lead, prospect, active, closed
  budget_min : Rat
  budget_max : Rat
  preferred_location : String
  notes : String
  source : String
  agent_id : Nat
deriving DecidableEq

/-- Model of `Client.full_name` (src/app.py lines 86-88). -/
def Client.full_name (c : Client) : String := c.first_name ++ (" ") ++ c.last_name

/-- Property row (`class Property`, src/app.py lines 91-116). -/
structure Property where
  id : Nat
  title : String
  property_type : String   -- house, apartment, condo, land, commercial
  status : String          -- available, pending, sold, rented
  listing_type : String    -- sale, rent
  price : Rat
  address : String
  city : String
  state : String
  zip_code : String
  description : String
  agent_id : Nat
deriving DecidableEq

/-- Deal row (`class Deal`, src/app.py lines 119-135). -/
structure Deal where
  id : Nat
  client_id : Nat
  property_id : Nat
  status : String          -- initiated, negotiation, under_contract, closed, cancelled
  offer_price : Option Rat
  final_price : Option Rat
  commission_rate : Rat
  closing_date : Option CalDate
  notes : String
deriving DecidableEq

/-- Model of the Python expression `self.final_price or self.offer_price or 0`
(src/app.py line 134).  Python `or` is falsy-coalescing: both `None` and `0.0`
are falsy, so a present-but-zero `final_price` falls through to `offer_price`. -/
def Deal.price_value (d : Deal) : Rat :=
  match d.final_price with
  | some v =>
      if v = 0 then
        (match d.offer_price with
         | some w => if w = 0 then 0 else w
         | none => 0)
      else v
  | none =>
      match d.offer_price with
      | some w => if w = 0 then 0 else w
      | none => 0

/-- Model of `Deal.commission_amount` (src/app.py lines 132-135):
`price * (self.commission_rate / 100) if price else 0`. -/
def Deal.commission_amount (d : Deal) : Rat :=
  let price := d.price_value
  if price = 0 then 0 else price * (d.commission_rate / 100)

/-- Interaction row (`class Interaction`, src/app.py lines 138-144). -/
structure Interaction where
  id : Nat
  client_id : Nat
  interaction_type : String
  subject : String
  notes : String
deriving DecidableEq

/-- Task row (`class Task`, src/app.py lines 147-156; renamed `TaskItem`
here because `Task` is taken by the Lean core library).  `due_date` and
`completed_at` are datetimes, modelled as `Option Nat` timestamps.
`user_id` is a nullable foreign key (src/app.py line 155): SQLAlchemy nulls
it when the owning staff row is deleted, so it is `Option Nat`. -/
structure TaskItem where
  id : Nat
  title : String
  description : String
  priority : String        -- low, medium, high, urgent
  status : String          -- pending, in_progress, completed
  due_date : Option Nat
  completed_at : Option Nat
  user_id : Option Nat
deriving DecidableEq

/-- Showing row (`class Showing`, src/app.py lines 159-168). -/
structure Showing where
  id : Nat
  property_id : Nat
  client_name : String
  client_phone : String
  client_email : String
  scheduled_date : Nat
  status : String          -- scheduled, completed, cancelled, no_show
  feedback : String
deriving DecidableEq

/-- Audit-trail row (`class Activity`, src/app.py lines 171-212). -/
structure Activity where
  id : Nat
  user_id : Nat
  action : String
  entity_type : Option String
  entity_id : Option Nat
  entity_name : Option String
  details : Option String
deriving DecidableEq

/-- The database: one list of rows per table. -/
structure CRMState where
  users : List User
  clients : List Client
  properties : List Property
  deals : List Deal
  interactions : List Interaction
  tasks : List TaskItem
  showings : List Showing
  activities : List Activity
deriving DecidableEq

/-- Autoincrement primary key: one more than the largest id in use. -/
def freshId (ids : List Nat) : Nat := ids.foldr (fun a b => max a b) 0 + 1

/-- Model of `log_activity` (src/app.py lines 215-228).  All modelled call
sites sit under `@login_required`, so the `current_user.is_authenticated`
guard holds and the append is unconditional here. -/
def log_activity (st : CRMState) (actorId : Nat) (action : String)
    (etype : String) (eid : Nat) (ename : String) (details : String) : CRMState :=
  { st with activities := st.activities ++
      [{ id := freshId (st.activities.map (fun a => a.id)),
         user_id := actorId, action := action,
         entity_type := some etype, entity_id := some eid,
         entity_name := some ename, details := some details }] }

-- ===================== Claim C1: commission amount =====================

/-- Spec-side definition, written from the spec words
`commissionAmount(deal) = (deal.finalPrice ?? deal.offerPrice ?? 0) * deal.commissionRate / 100`
with `??` read as null-coalescing (only absence falls through, zero does not).
It exists solely to compare the spec sentence with `Deal.commission_amount`. -/
def commission_amount_null_coalescing (d : Deal) : Rat :=
  (d.final_price.getD (d.offer_price.getD 0)) * (d.commission_rate / 100)

/-- A closed deal whose final price is recorded as 0.0 while an offer price of
300000 is present; commission rate 3%.  Reachable in src/app.py: `add_deal`
sets `final_price = float(request.form.get('final_price') or 0)` whenever the
form field is non-empty, so the string "0" produces the float 0.0. -/
def dealFinalZero : Deal :=
  { id := 1, client_id := 1, property_id := 1, status := "closed",
    offer_price := some 300000, final_price := some 0,
    commission_rate := 3, closing_date := none, notes := "" }

/-- Claim C1 is false on the code: for a closed deal with `final_price`
present but equal to 0 and `offer_price = 300000` at rate 3%, the claim says
the amount is `finalPrice * rate / 100 = 0`, but `Deal.commission_amount`
(the model of src/app.py lines 132-135, whose `or`-chain treats 0.0 as
absent) returns 9000. -/
theorem C1_counterexample :
    dealFinalZero.final_price = some 0 ∧
    Deal.commission_amount dealFinalZero = 9000 ∧
    commission_amount_null_coalescing dealFinalZero = 0 ∧
    Deal.commission_amount dealFinalZero ≠ commission_amount_null_coalescing dealFinalZero := by
  refine ⟨rfl, ?_, ?_, ?_⟩ <;>
    norm_num [Deal.commission_amount, Deal.price_value,
      commission_amount_null_coalescing, dealFinalZero]

/-- Claim C1 (amended): `commissionAmount` equals the first of
`finalPrice`, `offerPrice` that is present AND nonzero, multiplied by
`commissionRate / 100`; a present-but-zero `finalPrice` falls through to
`offerPrice`, and when both prices are absent or zero the amount is 0. -/
theorem C1_commission_amended (d : Deal) :
    ((d.final_price = none ∨ d.final_price = some 0) →
      (d.offer_price = none ∨ d.offer_price = some 0) →
      d.commission_amount = 0) ∧
    (∀ v, d.final_price = some v → v ≠ 0 →
      d.commission_amount = v * (d.commission_rate / 100)) ∧
    (∀ w, (d.final_price = none ∨ d.final_price = some 0) →
      d.offer_price = some w → w ≠ 0 →
      d.commission_amount = w * (d.commission_rate / 100)) := by
  refine ⟨?_, ?_, ?_⟩
  · rintro (hf | hf) (ho | ho) <;>
      simp [Deal.commission_amount, Deal.price_value, hf, ho]
  · intro v hf hv
    simp [Deal.commission_amount, Deal.price_value, hf, hv]
  · rintro w (hf | hf) ho hw <;>
      simp [Deal.commission_amount, Deal.price_value, hf, ho, hw]

/-- A closed deal with `offer_price = 300000`, no final price, rate 3%. -/
def dealOfferOnly : Deal :=
  { id := 2, client_id := 1, property_id := 1, status := "closed",
    offer_price := some 300000, final_price := none,
    commission_rate := 3, closing_date := none, notes := "" }

/-- Witness for `C1_commission_amended` at concrete deals: the offer-only
deal yields 9000, and a deal with no prices yields 0. -/
theorem C1_commission_amended_witness :
    dealOfferOnly.commission_amount = 300000 * ((3 : Rat) / 100) ∧
    Deal.commission_amount
      { id := 3, client_id := 1, property_id := 1, status := "initiated",
        offer_price := none, final_price := none,
        commission_rate := 3, closing_date := none, notes := "" } = 0 := by
  constructor
  · exact (C1_commission_amended dealOfferOnly).2.2 300000 (Or.inl rfl) rfl (by norm_num)
  · exact (C1_commission_amended _).1 (Or.inl rfl) (Or.inl rfl)

-- ===================== Route plumbing =====================

/-- Result of a mutating route: `ok` (success flash + redirect), `denied`
(the `Access denied` flash or the 403 JSON), `notFound` (`get_or_404`),
`error msg` (a validation/conflict flash), or `serverError` (an unhandled
database IntegrityError escaping the route as an HTTP 500: the commit is
rolled back, so no state change and no audit record). -/
inductive Outcome where
  | ok
  | denied
  | notFound
  | error (msg : String)
  | serverError
deriving DecidableEq

/-- Result of a read-only detail route: the rendered page payload, or the
`Access denied` redirect, or a 404. -/
inductive PageRes (α : Type) where
  | notFound
  | denied (msg : String)
  | ok (page : α)
deriving DecidableEq

/-- Form fields read by `add_client` / `edit_client` (src/app.py lines
363-431).  The routes coerce empty budgets to 0.0 before storing. -/
structure ClientForm where
  first_name : String
  last_name : String
  email : String
  phone : String
  client_type : String
  status : String
  budget_min : Rat
  budget_max : Rat
  preferred_location : String
  source : String
  notes : String
deriving DecidableEq

-- ===================== Client routes =====================

/-- Model of the `view_client` route (src/app.py lines 390-403): look the
client up, deny unless `client.agent_id == current_user.id` (no role
exemption appears in the code), otherwise render the detail page with the
client's interactions and deals.  The `created_at desc` ordering of
interactions is elided (no claim concerns it). -/
def view_client (st : CRMState) (actor : User) (id : Nat) :
    PageRes (Client × List Interaction × List Deal) :=
  match st.clients.find? (fun c => c.id == id) with
  | none => .notFound
  | some client =>
    if client.agent_id != actor.id then .denied ("Access denied")
    else .ok (client,
      st.interactions.filter (fun i => i.client_id == id),
      st.deals.filter (fun d => d.client_id == id))

/-- Model of the POST branch of `edit_client` (src/app.py lines 406-431):
same ownership check as `view_client`; on success overwrite the form-backed
columns in place and append one `updated`/`client` audit record. -/
def edit_client (st : CRMState) (actor : User) (id : Nat) (f : ClientForm) :
    CRMState × Outcome :=
  match st.clients.find? (fun c => c.id == id) with
  | none => (st, .notFound)
  | some client =>
    if client.agent_id != actor.id then (st, .denied)
    else
      let upd := { client with
        first_name := f.first_name, last_name := f.last_name,
        email := f.email, phone := f.phone, client_type := f.client_type,
        status := f.status, budget_min := f.budget_min,
        budget_max := f.budget_max,
        preferred_location := f.preferred_location,
        source := f.source, notes := f.notes }
      let st1 := { st with
        clients := st.clients.map (fun c => if c.id == id then upd else c) }
      (log_activity st1 actor.id ("updated") ("client") id upd.full_name
        (("Updated client: ") ++ upd.full_name), .ok)

/-- Model of the POST branch of `add_client` (src/app.py lines 363-387):
insert a new client owned by the acting user and append one
`created`/`client` audit record.  There is no failure path. -/
def add_client (st : CRMState) (actor : User) (f : ClientForm) :
    CRMState × Outcome :=
  let cid := freshId (st.clients.map (fun c => c.id))
  let client : Client := {
    id := cid, first_name := f.first_name, last_name := f.last_name,
    email := f.email, phone := f.phone, client_type := f.client_type,
    status := f.status, budget_min := f.budget_min,
    budget_max := f.budget_max,
    preferred_location := f.preferred_location,
    source := f.source, notes := f.notes, agent_id := actor.id }
  let st1 := { st with clients := st.clients ++ [client] }
  (log_activity st1 actor.id ("created") ("client") cid client.full_name
    (("Added new client: ") ++ client.full_name), .ok)

/-- Model of `delete_client` (src/app.py lines 434-447): ownership check,
then the delete is committed.  The cascade `all, delete-orphan` on
`Client.interactions` (line 83) deletes the client's interactions with it.
`Client.deals` (line 84) has NO delete cascade, so at flush SQLAlchemy
nulls `Deal.client_id` of every referencing deal; that column is declared
`nullable=False` (line 121), so the commit raises IntegrityError: nothing
is deleted, no audit record is written and the exception escapes the route
(`serverError`).  When no deal references the client the delete succeeds
with one `deleted`/`client` audit record (logged after the commit). -/
def delete_client (st : CRMState) (actor : User) (id : Nat) :
    CRMState × Outcome :=
  match st.clients.find? (fun c => c.id == id) with
  | none => (st, .notFound)
  | some client =>
    if client.agent_id != actor.id then (st, .denied)
    else if st.deals.any (fun d => d.client_id == id) then (st, .serverError)
    else
      let st1 := { st with
        clients := st.clients.filter (fun c => c.id != id),
        interactions := st.interactions.filter (fun i => i.client_id != id) }
      (log_activity st1 actor.id ("deleted") ("client") id client.full_name
        (("Deleted client: ") ++ client.full_name), .ok)

-- ===================== Claim C2: ownership check has no admin bypass =====================

/-- Agent who owns the client below. -/
def agentX : User :=
  { id := 1, username := "agentx", email := "x@crm", password_hash := "hx",
    role := "staff", first_name := "Agent", last_name := "X", phone := "",
    position := "", hire_date := none, commission_rate := 3,
    is_active := true, created_by := none }

/-- An administrator distinct from `agentX`. -/
def adminZ : User :=
  { id := 2, username := "admin", email := "a@crm", password_hash := "ha",
    role := "admin", first_name := "Admin", last_name := "User", phone := "",
    position := "", hire_date := none, commission_rate := 3,
    is_active := true, created_by := none }

/-- Client "Jane Doe" owned by `agentX`. -/
def janeDoe : Client :=
  { id := 1, first_name := "Jane", last_name := "Doe", email := "jane@d",
    phone := "555", client_type := "buyer", status := "lead",
    budget_min := 0, budget_max := 0, preferred_location := "",
    notes := "", source := "referral", agent_id := 1 }

/-- A small concrete database: two staff accounts and Jane Doe. -/
def stC2 : CRMState :=
  { users := [agentX, adminZ], clients := [janeDoe], properties := [],
    deals := [], interactions := [], tasks := [], showings := [],
    activities := [] }

/-- An arbitrary concrete edit form. -/
def formC2 : ClientForm :=
  { first_name := "Jane", last_name := "Doe", email := "jane@d",
    phone := "555", client_type := "buyer", status := "active",
    budget_min := 0, budget_max := 0, preferred_location := "",
    source := "referral", notes := "" }

/-- Claim C2 is false on the code: the ownership check in `view_client` and
`edit_client` (src/app.py lines 394, 410: `client.agent_id != current_user.id`)
has no admin exemption, so an admin who is not the owning agent is denied
exactly like any other non-owner. -/
theorem C2_counterexample :
    adminZ.role = "admin" ∧ janeDoe.agent_id ≠ adminZ.id ∧
    view_client stC2 adminZ 1 = PageRes.denied ("Access denied") ∧
    (edit_client stC2 adminZ 1 formC2).2 = Outcome.denied ∧
    (edit_client stC2 adminZ 1 formC2).1 = stC2 := by
  refine ⟨rfl, by decide, ?_, rfl, rfl⟩
  rfl

/-- Claim C2 (amended): the detail and edit operations on a Client are
gated purely on identity: every actor whose id differs from the client's
owning agent — admins included — receives Forbidden with no state change,
and the owning agent succeeds.  The check is never bypassed by role. -/
theorem C2_ownership_amended (st : CRMState) (actor : User) (id : Nat)
    (f : ClientForm) (c : Client)
    (hfind : st.clients.find? (fun x => x.id == id) = some c) :
    (c.agent_id ≠ actor.id →
      view_client st actor id = PageRes.denied ("Access denied") ∧
      (edit_client st actor id f).2 = Outcome.denied ∧
      (edit_client st actor id f).1 = st) ∧
    (c.agent_id = actor.id →
      (∃ page, view_client st actor id = PageRes.ok page) ∧
      (edit_client st actor id f).2 = Outcome.ok) := by
  constructor
  · intro hne
    have hb : (c.agent_id != actor.id) = true := by
      simpa [bne_iff_ne] using hne
    refine ⟨?_, ?_, ?_⟩ <;> simp [view_client, edit_client, hfind, hb]
  · intro heq
    have hb : (c.agent_id != actor.id) = false := by
      simp [bne_eq_false_iff_eq, heq]
    refine ⟨⟨(c, st.interactions.filter (fun i => i.client_id == id),
      st.deals.filter (fun d => d.client_id == id)), ?_⟩, ?_⟩ <;>
      simp [view_client, edit_client, hfind, hb]

/-- Witness for `C2_ownership_amended`: a staff colleague (id 3) is denied
on Jane Doe, and the owner `agentX` succeeds. -/
theorem C2_ownership_amended_witness :
    (view_client stC2 agentX 1 = PageRes.denied ("Access denied") ∧
      (edit_client stC2 agentX 1 formC2).2 = Outcome.denied ∧
      (edit_client stC2 agentX 1 formC2).1 = stC2) ∨
    ((∃ page, view_client stC2 agentX 1 = PageRes.ok page) ∧
      (edit_client stC2 agentX 1 formC2).2 = Outcome.ok) := by
  exact Or.inr ((C2_ownership_amended stC2 agentX 1 formC2 janeDoe rfl).2 rfl)

-- ===================== Property routes =====================

/-- Form fields read by `add_property` / `edit_property` (src/app.py lines
500-580; the purely numeric display columns are elided, see the header). -/
structure PropertyForm where
  title : String
  property_type : String
  status : String
  listing_type : String
  price : Rat
  address : String
  city : String
  state : String
  zip_code : String
  description : String
deriving DecidableEq

/-- Model of the POST branch of `add_property` (src/app.py lines 500-530):
insert a property owned by the acting user, one `created`/`property` audit
record, no failure path. -/
def add_property (st : CRMState) (actor : User) (f : PropertyForm) :
    CRMState × Outcome :=
  let pid := freshId (st.properties.map (fun p => p.id))
  let prop : Property := {
    id := pid, title := f.title, property_type := f.property_type,
    status := f.status, listing_type := f.listing_type, price := f.price,
    address := f.address, city := f.city, state := f.state,
    zip_code := f.zip_code, description := f.description,
    agent_id := actor.id }
  let st1 := { st with properties := st.properties ++ [prop] }
  (log_activity st1 actor.id ("created") ("property") pid prop.title
    (("Added property: ") ++ prop.title), .ok)

/-- Model of the POST branch of `edit_property` (src/app.py lines 549-580):
ownership check `prop.agent_id != current_user.id`, then in-place update and
one `updated`/`property` audit record. -/
def edit_property (st : CRMState) (actor : User) (id : Nat)
    (f : PropertyForm) : CRMState × Outcome :=
  match st.properties.find? (fun p => p.id == id) with
  | none => (st, .notFound)
  | some prop =>
    if prop.agent_id != actor.id then (st, .denied)
    else
      let upd := { prop with
        title := f.title, property_type := f.property_type,
        status := f.status, listing_type := f.listing_type,
        price := f.price, address := f.address, city := f.city,
        state := f.state, zip_code := f.zip_code,
        description := f.description }
      let st1 := { st with
        properties := st.properties.map (fun p => if p.id == id then upd else p) }
      (log_activity st1 actor.id ("updated") ("property") id upd.title
        (("Updated property: ") ++ upd.title), .ok)

/-- Model of `delete_property` (src/app.py lines 583-596): ownership
check, then the delete is committed.  The cascade on `Property.showings`
(line 116) removes the property's showings with it.  `Property.deals`
(line 115) has NO delete cascade, so a referencing deal would have its
`nullable=False` `Deal.property_id` (line 122) nulled at flush: the commit
raises IntegrityError and nothing changes (`serverError`).  Otherwise the
delete succeeds with one `deleted`/`property` audit record. -/
def delete_property (st : CRMState) (actor : User) (id : Nat) :
    CRMState × Outcome :=
  match st.properties.find? (fun p => p.id == id) with
  | none => (st, .notFound)
  | some prop =>
    if prop.agent_id != actor.id then (st, .denied)
    else if st.deals.any (fun d => d.property_id == id) then (st, .serverError)
    else
      let st1 := { st with
        properties := st.properties.filter (fun p => p.id != id),
        showings := st.showings.filter (fun s => s.property_id != id) }
      (log_activity st1 actor.id ("deleted") ("property") id prop.title
        (("Deleted property: ") ++ prop.title), .ok)

/-- Form fields read by `add_showing` (src/app.py lines 599-618). -/
structure ShowingForm where
  client_name : String
  client_phone : String
  client_email : String
  scheduled_date : Nat
deriving DecidableEq

/-- Model of `add_showing` (src/app.py lines 599-618): ownership check on
the parent property (403 JSON on failure), then insert a `scheduled` showing
and one `scheduled`/`showing` audit record carrying the new showing's id. -/
def add_showing (st : CRMState) (actor : User) (id : Nat) (f : ShowingForm) :
    CRMState × Outcome :=
  match st.properties.find? (fun p => p.id == id) with
  | none => (st, .notFound)
  | some prop =>
    if prop.agent_id != actor.id then (st, .denied)
    else
      let sid := freshId (st.showings.map (fun s => s.id))
      let showing : Showing := {
        id := sid, property_id := id, client_name := f.client_name,
        client_phone := f.client_phone, client_email := f.client_email,
        scheduled_date := f.scheduled_date, status := "scheduled",
        feedback := "" }
      let st1 := { st with showings := st.showings ++ [showing] }
      (log_activity st1 actor.id ("scheduled") ("showing") sid prop.title
        (("Scheduled showing for ") ++ prop.title ++ (" with ") ++
          f.client_name), .ok)

-- ===================== Deal routes =====================

/-- Form fields read by `add_deal` / `edit_deal` (src/app.py lines 637-693).
`offer_price` is always coerced (`float(... or 0)`), so it is plain; the
`final_price` field is stored only when non-empty, so it is optional. -/
structure DealForm where
  client_id : Nat
  property_id : Nat
  status : String
  offer_price : Rat
  final_price : Option Rat
  commission_rate : Rat
  closing_date : Option CalDate
  notes : String
deriving DecidableEq

/-- Title of the referenced property, as used by the deal routes for the
audit `entity_name` (`deal.property.title`).  The code would raise if the
property row were missing; the defined case is modelled. -/
def propertyTitle (st : CRMState) (pid : Nat) : String :=
  match st.properties.find? (fun p => p.id == pid) with
  | some p => p.title
  | none => ""

/-- Model of the POST branch of `add_deal` (src/app.py lines 637-660):
insert the deal and append one `created`/`deal` audit record.  Note the code
performs NO ownership check on the referenced client or property. -/
def add_deal (st : CRMState) (actor : User) (f : DealForm) :
    CRMState × Outcome :=
  let did := freshId (st.deals.map (fun d => d.id))
  let deal : Deal := {
    id := did, client_id := f.client_id, property_id := f.property_id,
    status := f.status, offer_price := some f.offer_price,
    final_price := f.final_price, commission_rate := f.commission_rate,
    closing_date := f.closing_date, notes := f.notes }
  let st1 := { st with deals := st.deals ++ [deal] }
  (log_activity st1 actor.id ("created") ("deal") did
    (propertyTitle st f.property_id)
    (("Created deal for ") ++ propertyTitle st f.property_id), .ok)

/-- Model of the POST branch of `edit_deal` (src/app.py lines 663-693):
ownership is checked through the deal's client
(`deal.client.agent_id != current_user.id`); on success the deal is updated
in place and ONE audit record is appended — `status_change` when the status
changed, otherwise `updated`, both with entity type `deal` and the deal's id.
A missing client row would make the code raise; it is modelled as a failure
with no side effect. -/
def edit_deal (st : CRMState) (actor : User) (id : Nat) (f : DealForm) :
    CRMState × Outcome :=
  match st.deals.find? (fun d => d.id == id) with
  | none => (st, .notFound)
  | some deal =>
    match st.clients.find? (fun c => c.id == deal.client_id) with
    | none => (st, .notFound)
    | some cl =>
      if cl.agent_id != actor.id then (st, .denied)
      else
        let upd := { deal with
          client_id := f.client_id, property_id := f.property_id,
          status := f.status, offer_price := some f.offer_price,
          final_price := f.final_price,
          commission_rate := f.commission_rate,
          closing_date := f.closing_date, notes := f.notes }
        let st1 := { st with
          deals := st.deals.map (fun d => if d.id == id then upd else d) }
        if deal.status != f.status then
          (log_activity st1 actor.id ("status_change") ("deal") id
            (propertyTitle st1 f.property_id)
            (("Deal status changed: ") ++ deal.status ++ (" to ") ++ f.status), .ok)
        else
          (log_activity st1 actor.id ("updated") ("deal") id
            (propertyTitle st1 f.property_id)
            (("Updated deal for ") ++ propertyTitle st1 f.property_id), .ok)

-- ===================== Task routes =====================

/-- Form fields read by `add_task` (src/app.py lines 715-730). -/
structure TaskForm where
  title : String
  description : String
  priority : String
  due_date : Option Nat
deriving DecidableEq

/-- Model of `add_task` (src/app.py lines 715-730): insert a task assigned
to the acting user (status defaults to `pending`), one `created`/`task`
audit record, no failure path. -/
def add_task (st : CRMState) (actor : User) (f : TaskForm) :
    CRMState × Outcome :=
  let tid := freshId (st.tasks.map (fun t => t.id))
  let task : TaskItem := {
    id := tid, title := f.title, description := f.description,
    priority := f.priority, status := "pending", due_date := f.due_date,
    completed_at := none, user_id := some actor.id }
  let st1 := { st with tasks := st.tasks ++ [task] }
  (log_activity st1 actor.id ("created") ("task") tid f.title
    (("Created task: ") ++ f.title), .ok)

/-- Model of `toggle_task` (src/app.py lines 733-750): ownership check
(403 JSON on failure), flip `completed`/`pending` setting or clearing
`completed_at` (`now` models `datetime.utcnow()`), and append one
`status_change`/`task` audit record. -/
def toggle_task (st : CRMState) (actor : User) (id : Nat) (now : Nat) :
    CRMState × Outcome :=
  match st.tasks.find? (fun t => t.id == id) with
  | none => (st, .notFound)
  | some task =>
    if task.user_id != some actor.id then (st, .denied)
    else if task.status == "completed" then
      let upd := { task with status := "pending", completed_at := none }
      let st1 := { st with
        tasks := st.tasks.map (fun t => if t.id == id then upd else t) }
      (log_activity st1 actor.id ("status_change") ("task") id task.title
        (("Reopened task: ") ++ task.title), .ok)
    else
      let upd := { task with status := "completed", completed_at := some now }
      let st1 := { st with
        tasks := st.tasks.map (fun t => if t.id == id then upd else t) }
      (log_activity st1 actor.id ("status_change") ("task") id task.title
        (("Completed task: ") ++ task.title), .ok)

/-- Model of `delete_task` (src/app.py lines 753-765): ownership check,
delete the row, one `deleted`/`task` audit record. -/
def delete_task (st : CRMState) (actor : User) (id : Nat) :
    CRMState × Outcome :=
  match st.tasks.find? (fun t => t.id == id) with
  | none => (st, .notFound)
  | some task =>
    if task.user_id != some actor.id then (st, .denied)
    else
      let st1 := { st with tasks := st.tasks.filter (fun t => t.id != id) }
      (log_activity st1 actor.id ("deleted") ("task") id task.title
        (("Deleted task: ") ++ task.title), .ok)

-- ===================== Interaction route =====================

/-- Form fields read by `add_interaction` (src/app.py lines 450-466). -/
structure InteractionForm where
  interaction_type : String
  subject : String
  notes : String
deriving DecidableEq

/-- Model of `add_interaction` (src/app.py lines 450-466): ownership check
on the parent client (403 JSON on failure), then insert the interaction.
Note the code calls NO `log_activity` here. -/
def add_interaction (st : CRMState) (actor : User) (id : Nat)
    (f : InteractionForm) : CRMState × Outcome :=
  match st.clients.find? (fun c => c.id == id) with
  | none => (st, .notFound)
  | some client =>
    if client.agent_id != actor.id then (st, .denied)
    else
      let iid := freshId (st.interactions.map (fun i => i.id))
      let inter : Interaction := {
        id := iid, client_id := id,
        interaction_type := f.interaction_type, subject := f.subject,
        notes := f.notes }
      ({ st with interactions := st.interactions ++ [inter] }, .ok)

-- ===================== Claim C3: one audit record per mutation =====================

/-- `post` extends `pre` by exactly one audit record whose entity type and
entity id are the given ones. -/
def appendsOne (pre post : CRMState) (etype : String) (eid : Nat) : Prop :=
  ∃ a, post.activities = pre.activities ++ [a] ∧
    a.entity_type = some etype ∧ a.entity_id = some eid

/-- Calling `log_activity` on a state whose audit log equals `st`'s appends
exactly one matching record over `st`. -/
lemma appendsOne_log (st st1 : CRMState) (h : st1.activities = st.activities)
    (aid : Nat) (act ety : String) (eid : Nat) (en det : String) :
    appendsOne st (log_activity st1 aid act ety eid en det) ety eid := by
  refine ⟨{ id := freshId (st1.activities.map (fun a => a.id)),
            user_id := aid, action := act, entity_type := some ety,
            entity_id := some eid, entity_name := some en,
            details := some det }, ?_, rfl, rfl⟩
  simp [log_activity, h]

/-- Claim C3: every successful create, update or delete route on a Client,
Property, Deal, Task or Showing appends exactly one new ActivityRecord whose
entity type and entity id name the mutated entity, and every route denied by
the ownership check leaves the whole state (entities and audit log alike)
unchanged.  One conjunct per modelled route of src/app.py. -/
theorem C3_audit_exactly_one (st : CRMState) (actor : User)
    (cf : ClientForm) (pf : PropertyForm) (df : DealForm) (tf : TaskForm)
    (sf : ShowingForm) (cid pid did tid spid now : Nat) :
    appendsOne st (add_client st actor cf).1 ("client")
      (freshId (st.clients.map (fun c => c.id))) ∧
    ((edit_client st actor cid cf).2 = Outcome.ok →
      appendsOne st (edit_client st actor cid cf).1 ("client") cid) ∧
    ((edit_client st actor cid cf).2 = Outcome.denied →
      (edit_client st actor cid cf).1 = st) ∧
    ((delete_client st actor cid).2 = Outcome.ok →
      appendsOne st (delete_client st actor cid).1 ("client") cid) ∧
    ((delete_client st actor cid).2 = Outcome.denied →
      (delete_client st actor cid).1 = st) ∧
    appendsOne st (add_property st actor pf).1 ("property")
      (freshId (st.properties.map (fun p => p.id))) ∧
    ((edit_property st actor pid pf).2 = Outcome.ok →
      appendsOne st (edit_property st actor pid pf).1 ("property") pid) ∧
    ((edit_property st actor pid pf).2 = Outcome.denied →
      (edit_property st actor pid pf).1 = st) ∧
    ((delete_property st actor pid).2 = Outcome.ok →
      appendsOne st (delete_property st actor pid).1 ("property") pid) ∧
    ((delete_property st actor pid).2 = Outcome.denied →
      (delete_property st actor pid).1 = st) ∧
    appendsOne st (add_deal st actor df).1 ("deal")
      (freshId (st.deals.map (fun d => d.id))) ∧
    ((edit_deal st actor did df).2 = Outcome.ok →
      appendsOne st (edit_deal st actor did df).1 ("deal") did) ∧
    ((edit_deal st actor did df).2 = Outcome.denied →
      (edit_deal st actor did df).1 = st) ∧
    appendsOne st (add_task st actor tf).1 ("task")
      (freshId (st.tasks.map (fun t => t.id))) ∧
    ((toggle_task st actor tid now).2 = Outcome.ok →
      appendsOne st (toggle_task st actor tid now).1 ("task") tid) ∧
    ((toggle_task st actor tid now).2 = Outcome.denied →
      (toggle_task st actor tid now).1 = st) ∧
    ((delete_task st actor tid).2 = Outcome.ok →
      appendsOne st (delete_task st actor tid).1 ("task") tid) ∧
    ((delete_task st actor tid).2 = Outcome.denied →
      (delete_task st actor tid).1 = st) ∧
    ((add_showing st actor spid sf).2 = Outcome.ok →
      appendsOne st (add_showing st actor spid sf).1 ("showing")
        (freshId (st.showings.map (fun s => s.id)))) ∧
    ((add_showing st actor spid sf).2 = Outcome.denied →
      (add_showing st actor spid sf).1 = st) := by
  refine ⟨?_, ?_, ?_, ?_, ?_, ?_, ?_, ?_, ?_, ?_, ?_, ?_, ?_, ?_, ?_, ?_,
    ?_, ?_, ?_, ?_⟩
  · exact appendsOne_log st _ rfl _ _ _ _ _ _
  · intro h
    rcases hf : st.clients.find? (fun c => c.id == cid) with _ | client
    · simp [edit_client, hf] at h
    · cases hb : client.agent_id != actor.id
      · simp only [edit_client, hf, hb, Bool.false_eq_true, if_false]
        exact appendsOne_log st _ rfl _ _ _ _ _ _
      · simp [edit_client, hf, hb] at h
  · intro h
    rcases hf : st.clients.find? (fun c => c.id == cid) with _ | client
    · simp [edit_client, hf] at h
    · cases hb : client.agent_id != actor.id
      · simp [edit_client, hf, hb] at h
      · simp [edit_client, hf, hb]
  · intro h
    rcases hf : st.clients.find? (fun c => c.id == cid) with _ | client
    · simp [delete_client, hf] at h
    · cases hb : client.agent_id != actor.id
      · cases hd : st.deals.any (fun d => d.client_id == cid)
        · simp only [delete_client, hf, hb, hd, Bool.false_eq_true, if_false]
          exact appendsOne_log st _ rfl _ _ _ _ _ _
        · simp [delete_client, hf, hb, hd] at h
      · simp [delete_client, hf, hb] at h
  · intro h
    rcases hf : st.clients.find? (fun c => c.id == cid) with _ | client
    · simp [delete_client, hf] at h
    · cases hb : client.agent_id != actor.id
      · cases hd : st.deals.any (fun d => d.client_id == cid) <;>
          simp [delete_client, hf, hb, hd] at h
      · simp [delete_client, hf, hb]
  · exact appendsOne_log st _ rfl _ _ _ _ _ _
  · intro h
    rcases hf : st.properties.find? (fun p => p.id == pid) with _ | prop
    · simp [edit_property, hf] at h
    · cases hb : prop.agent_id != actor.id
      · simp only [edit_property, hf, hb, Bool.false_eq_true, if_false]
        exact appendsOne_log st _ rfl _ _ _ _ _ _
      · simp [edit_property, hf, hb] at h
  · intro h
    rcases hf : st.properties.find? (fun p => p.id == pid) with _ | prop
    · simp [edit_property, hf] at h
    · cases hb : prop.agent_id != actor.id
      · simp [edit_property, hf, hb] at h
      · simp [edit_property, hf, hb]
  · intro h
    rcases hf : st.properties.find? (fun p => p.id == pid) with _ | prop
    · simp [delete_property, hf] at h
    · cases hb : prop.agent_id != actor.id
      · cases hd : st.deals.any (fun d => d.property_id == pid)
        · simp only [delete_property, hf, hb, hd, Bool.false_eq_true,
            if_false]
          exact appendsOne_log st _ rfl _ _ _ _ _ _
        · simp [delete_property, hf, hb, hd] at h
      · simp [delete_property, hf, hb] at h
  · intro h
    rcases hf : st.properties.find? (fun p => p.id == pid) with _ | prop
    · simp [delete_property, hf] at h
    · cases hb : prop.agent_id != actor.id
      · cases hd : st.deals.any (fun d => d.property_id == pid) <;>
          simp [delete_property, hf, hb, hd] at h
      · simp [delete_property, hf, hb]
  · exact appendsOne_log st _ rfl _ _ _ _ _ _
  · intro h
    rcases hf : st.deals.find? (fun d => d.id == did) with _ | deal
    · simp [edit_deal, hf] at h
    · rcases hc : st.clients.find? (fun c => c.id == deal.client_id) with _ | cl
      · simp [edit_deal, hf, hc] at h
      · cases hb : cl.agent_id != actor.id
        · cases hs : deal.status != df.status
          · simp only [edit_deal, hf, hc, hb, hs, Bool.false_eq_true, if_false]
            exact appendsOne_log st _ rfl _ _ _ _ _ _
          · simp only [edit_deal, hf, hc, hb, hs, Bool.false_eq_true,
              if_false, if_true]
            exact appendsOne_log st _ rfl _ _ _ _ _ _
        · simp [edit_deal, hf, hc, hb] at h
  · intro h
    rcases hf : st.deals.find? (fun d => d.id == did) with _ | deal
    · simp [edit_deal, hf] at h
    · rcases hc : st.clients.find? (fun c => c.id == deal.client_id) with _ | cl
      · simp [edit_deal, hf, hc] at h
      · cases hb : cl.agent_id != actor.id
        · cases hs : deal.status != df.status <;>
            simp [edit_deal, hf, hc, hb, hs] at h
        · simp [edit_deal, hf, hc, hb]
  · exact appendsOne_log st _ rfl _ _ _ _ _ _
  · intro h
    rcases hf : st.tasks.find? (fun t => t.id == tid) with _ | task
    · simp [toggle_task, hf] at h
    · cases hb : task.user_id != some actor.id
      · cases hs : task.status == "completed"
        · simp only [toggle_task, hf, hb, hs, Bool.false_eq_true, if_false]
          exact appendsOne_log st _ rfl _ _ _ _ _ _
        · simp only [toggle_task, hf, hb, hs, Bool.false_eq_true, if_false,
            if_true]
          exact appendsOne_log st _ rfl _ _ _ _ _ _
      · simp [toggle_task, hf, hb] at h
  · intro h
    rcases hf : st.tasks.find? (fun t => t.id == tid) with _ | task
    · simp [toggle_task, hf] at h
    · cases hb : task.user_id != some actor.id
      · cases hs : task.status == "completed" <;>
          simp [toggle_task, hf, hb, hs] at h
      · simp [toggle_task, hf, hb]
  · intro h
    rcases hf : st.tasks.find? (fun t => t.id == tid) with _ | task
    · simp [delete_task, hf] at h
    · cases hb : task.user_id != some actor.id
      · simp only [delete_task, hf, hb, Bool.false_eq_true, if_false]
        exact appendsOne_log st _ rfl _ _ _ _ _ _
      · simp [delete_task, hf, hb] at h
  · intro h
    rcases hf : st.tasks.find? (fun t => t.id == tid) with _ | task
    · simp [delete_task, hf] at h
    · cases hb : task.user_id != some actor.id
      · simp [delete_task, hf, hb] at h
      · simp [delete_task, hf, hb]
  · intro h
    rcases hf : st.properties.find? (fun p => p.id == spid) with _ | prop
    · simp [add_showing, hf] at h
    · cases hb : prop.agent_id != actor.id
      · simp only [add_showing, hf, hb, Bool.false_eq_true, if_false]
        exact appendsOne_log st _ rfl _ _ _ _ _ _
      · simp [add_showing, hf, hb] at h
  · intro h
    rcases hf : st.properties.find? (fun p => p.id == spid) with _ | prop
    · simp [add_showing, hf] at h
    · cases hb : prop.agent_id != actor.id
      · simp [add_showing, hf, hb] at h
      · simp [add_showing, hf, hb]

/-- A third staff member, not the owner of anything below. -/
def colleagueW : User :=
  { id := 3, username := "colleague", email := "c@crm",
    password_hash := "hc", role := "staff", first_name := "Col",
    last_name := "League", phone := "", position := "", hire_date := none,
    commission_rate := 3, is_active := true, created_by := none }

/-- A property owned by `agentX`. -/
def propOne : Property :=
  { id := 1, title := "Maple House", property_type := "house",
    status := "available", listing_type := "sale", price := 500000,
    address := "1 Maple St", city := "Springfield", state := "IL",
    zip_code := "62701", description := "", agent_id := 1 }

/-- A deal between Jane Doe and the Maple House. -/
def dealOne : Deal :=
  { id := 1, client_id := 1, property_id := 1, status := "initiated",
    offer_price := some 300000, final_price := none, commission_rate := 3,
    closing_date := none, notes := "" }

/-- A pending task assigned to `agentX`. -/
def taskOne : TaskItem :=
  { id := 1, title := "Call Jane", description := "", priority := "medium",
    status := "pending", due_date := some 100, completed_at := none,
    user_id := some 1 }

/-- Concrete database used by several witnesses. -/
def stC3 : CRMState :=
  { users := [agentX, adminZ, colleagueW], clients := [janeDoe],
    properties := [propOne], deals := [dealOne], interactions := [],
    tasks := [taskOne], showings := [], activities := [] }

/-- Concrete property form. -/
def propFormW : PropertyForm :=
  { title := "Oak Flat", property_type := "apartment",
    status := "available", listing_type := "rent", price := 1200,
    address := "2 Oak Ave", city := "Springfield", state := "IL",
    zip_code := "62702", description := "" }

/-- Concrete deal form. -/
def dealFormW : DealForm :=
  { client_id := 1, property_id := 1, status := "negotiation",
    offer_price := 310000, final_price := none, commission_rate := 3,
    closing_date := none, notes := "" }

/-- Concrete task form. -/
def taskFormW : TaskForm :=
  { title := "Send papers", description := "", priority := "high",
    due_date := some 200 }

/-- Concrete showing form. -/
def showFormW : ShowingForm :=
  { client_name := "Walkin Guest", client_phone := "555",
    client_email := "g@x", scheduled_date := 300 }

/-- An interaction logged for Jane Doe. -/
def interOne : Interaction :=
  { id := 1, client_id := 1, interaction_type := "call",
    subject := "Intro call", notes := "" }

/-- A showing scheduled at the Maple House. -/
def showOne : Showing :=
  { id := 1, property_id := 1, client_name := "Walkin Guest",
    client_phone := "", client_email := "", scheduled_date := 400,
    status := "scheduled", feedback := "" }

/-- The same database without any deals (so client/property deletes are
not blocked by a referencing deal), with one interaction and one showing
to make the cascades visible. -/
def stNoDeals : CRMState :=
  { users := [agentX, adminZ, colleagueW], clients := [janeDoe],
    properties := [propOne], deals := [], interactions := [interOne],
    tasks := [taskOne], showings := [showOne], activities := [] }

/-- Witness for `C3_audit_exactly_one`: on the concrete databases, the
owner's successful routes each append one matching audit record (the
client delete is exercised on `stNoDeals`, where no deal blocks it), and a
colleague's denied routes leave the state untouched. -/
theorem C3_audit_exactly_one_witness :
    appendsOne stC3 (add_client stC3 agentX formC2).1 ("client") 2 ∧
    appendsOne stC3 (edit_client stC3 agentX 1 formC2).1 ("client") 1 ∧
    appendsOne stNoDeals (delete_client stNoDeals agentX 1).1 ("client") 1 ∧
    appendsOne stC3 (add_deal stC3 agentX dealFormW).1 ("deal") 2 ∧
    appendsOne stC3 (toggle_task stC3 agentX 1 500).1 ("task") 1 ∧
    appendsOne stC3 (add_showing stC3 agentX 1 showFormW).1 ("showing") 1 ∧
    (edit_client stC3 colleagueW 1 formC2).1 = stC3 ∧
    (delete_property stC3 colleagueW 1).1 = stC3 := by
  obtain ⟨a1, a2, a3, a4, a5, a6, a7, a8, a9, a10, a11, a12, a13, a14, a15,
    a16, a17, a18, a19, a20⟩ :=
    C3_audit_exactly_one stC3 agentX formC2 propFormW dealFormW taskFormW
      showFormW 1 1 1 1 1 500
  obtain ⟨b1, b2, b3, b4, b5, b6, b7, b8, b9, b10, b11, b12, b13, b14, b15,
    b16, b17, b18, b19, b20⟩ :=
    C3_audit_exactly_one stC3 colleagueW formC2 propFormW dealFormW taskFormW
      showFormW 1 1 1 1 1 500
  obtain ⟨c1, c2, c3, c4, c5, c6, c7, c8, c9, c10, c11, c12, c13, c14, c15,
    c16, c17, c18, c19, c20⟩ :=
    C3_audit_exactly_one stNoDeals agentX formC2 propFormW dealFormW
      taskFormW showFormW 1 1 1 1 1 500
  exact ⟨a1, a2 rfl, c4 rfl, a11, a15 rfl, a19 rfl, b3 rfl, b10 rfl⟩

-- ===================== Listing routes =====================

/-- Case-insensitive substring test, the model of SQL
`column ILIKE '%search%'` used by the listing routes. -/
def strContainsCI (hay needle : String) : Bool :=
  (List.range (hay.toLower.toList.length + 1)).any
    (fun i => needle.toLower.toList.isPrefixOf (hay.toLower.toList.drop i))

/-- Model of the `clients` listing route (src/app.py lines 336-360): the
base query is ALWAYS `filter_by(agent_id=current_user.id)`, then optional
exact filters on status and type and an ILIKE search over
first/last/email/phone.  The `created_at desc` ordering is elided: the
claims about this route concern membership only. -/
def clients_route (st : CRMState) (uid : Nat)
    (statusF typeF search : String) : List Client :=
  let q0 := st.clients.filter (fun c => c.agent_id == uid)
  let q1 := if statusF != "" then q0.filter (fun c => c.status == statusF) else q0
  let q2 := if typeF != "" then q1.filter (fun c => c.client_type == typeF) else q1
  if search != "" then
    q2.filter (fun c =>
      strContainsCI c.first_name search || strContainsCI c.last_name search ||
      strContainsCI c.email search || strContainsCI c.phone search)
  else q2

/-- Model of the `properties` listing route (src/app.py lines 471-497),
owner-filtered with optional status/type/listing filters and an ILIKE
search over title/address/city; ordering elided as above. -/
def properties_route (st : CRMState) (uid : Nat)
    (statusF typeF listingF search : String) : List Property :=
  let q0 := st.properties.filter (fun p => p.agent_id == uid)
  let q1 := if statusF != "" then q0.filter (fun p => p.status == statusF) else q0
  let q2 := if typeF != "" then q1.filter (fun p => p.property_type == typeF) else q1
  let q3 := if listingF != "" then q2.filter (fun p => p.listing_type == listingF) else q2
  if search != "" then
    q3.filter (fun p =>
      strContainsCI p.title search || strContainsCI p.address search ||
      strContainsCI p.city search)
  else q3

/-- Does the acting user own this deal through its client?  Model of the
join `Deal.query.join(Client).filter(Client.agent_id == current_user.id)`
(src/app.py line 628): a deal whose client row is missing is dropped by the
inner join. -/
def dealOwnedBy (st : CRMState) (d : Deal) (uid : Nat) : Bool :=
  match st.clients.find? (fun c => c.id == d.client_id) with
  | some c => c.agent_id == uid
  | none => false

/-- Model of the `deals` listing route (src/app.py lines 623-634):
join-filtered to the acting user's clients, optional status filter;
ordering elided. -/
def deals_route (st : CRMState) (uid : Nat) (statusF : String) : List Deal :=
  let q0 := st.deals.filter (fun d => dealOwnedBy st d uid)
  if statusF != "" then q0.filter (fun d => d.status == statusF) else q0

/-- Model of the `tasks` listing route (src/app.py lines 698-712):
owner-filtered with optional status/priority filters; the `due_date`
ordering is elided (membership only). -/
def tasks_route (st : CRMState) (uid : Nat)
    (statusF priorityF : String) : List TaskItem :=
  let q0 := st.tasks.filter (fun t => t.user_id == some uid)
  let q1 := if statusF != "" then q0.filter (fun t => t.status == statusF) else q0
  if priorityF != "" then q1.filter (fun t => t.priority == priorityF) else q1

-- ===================== Claim C4: listings never leak across owners =====================

/-- Membership in an optionally applied filter implies membership in the
underlying list. -/
lemma mem_of_mem_filterIf {α : Type} {b : Bool} {l : List α} {p : α → Bool}
    {x : α} (hx : x ∈ if b then l.filter p else l) : x ∈ l := by
  split at hx
  · exact (List.mem_filter.mp hx).1
  · exact hx

/-- Claim C4: an entity owned by agent A (a Client, Property or Task
directly, a Deal through its Client) never appears in the corresponding
listing route invoked by a non-admin B ≠ A, whatever the status/type/search
filters. -/
theorem C4_listing_scoped (st : CRMState) (A B : User)
    (hAB : B.id ≠ A.id) (_hrole : B.role ≠ "admin")
    (csf ctf csearch psf ptf plf psearch tsf tpf dsf : String)
    (c : Client) (p : Property) (t : TaskItem) (d : Deal) (cl : Client)
    (hc : c.agent_id = A.id) (hp : p.agent_id = A.id)
    (ht : t.user_id = some A.id)
    (hdcl : st.clients.find? (fun x => x.id == d.client_id) = some cl)
    (hcl : cl.agent_id = A.id) :
    c ∉ clients_route st B.id csf ctf csearch ∧
    p ∉ properties_route st B.id psf ptf plf psearch ∧
    t ∉ tasks_route st B.id tsf tpf ∧
    d ∉ deals_route st B.id dsf := by
  refine ⟨?_, ?_, ?_, ?_⟩ <;> intro hmem
  · simp only [clients_route] at hmem
    have h0 := mem_of_mem_filterIf (mem_of_mem_filterIf
      (mem_of_mem_filterIf hmem))
    have hb := (List.mem_filter.mp h0).2
    rw [hc] at hb
    have hba : A.id = B.id := by simpa using hb
    exact hAB hba.symm
  · simp only [properties_route] at hmem
    have h0 := mem_of_mem_filterIf (mem_of_mem_filterIf
      (mem_of_mem_filterIf (mem_of_mem_filterIf hmem)))
    have hb := (List.mem_filter.mp h0).2
    rw [hp] at hb
    have hba : A.id = B.id := by simpa using hb
    exact hAB hba.symm
  · simp only [tasks_route] at hmem
    have h0 := mem_of_mem_filterIf (mem_of_mem_filterIf hmem)
    have hb := (List.mem_filter.mp h0).2
    rw [ht] at hb
    have hba : A.id = B.id := by simpa using hb
    exact hAB hba.symm
  · simp only [deals_route] at hmem
    have h0 := mem_of_mem_filterIf hmem
    have hb := (List.mem_filter.mp h0).2
    rw [dealOwnedBy, hdcl] at hb
    have hb2 : (cl.agent_id == B.id) = true := hb
    rw [hcl] at hb2
    have hba : A.id = B.id := by simpa using hb2
    exact hAB hba.symm

/-- Witness for `C4_listing_scoped`: on the concrete database, the staff
colleague (id 3) sees none of `agentX`'s entities in any listing. -/
theorem C4_listing_scoped_witness :
    janeDoe ∉ clients_route stC3 3 ("") ("") ("") ∧
    propOne ∉ properties_route stC3 3 ("") ("") ("") ("") ∧
    taskOne ∉ tasks_route stC3 3 ("") ("") ∧
    dealOne ∉ deals_route stC3 3 ("") := by
  exact C4_listing_scoped stC3 agentX colleagueW (by decide) (by decide)
    ("") ("") ("") ("") ("") ("") ("") ("") ("") ("")
    janeDoe propOne taskOne dealOne janeDoe rfl rfl rfl rfl rfl

-- ===================== Reports route (monthly breakdown) =====================

/-- Upper bound of a report month: the first day of the next month
(src/app.py lines 779-782: `datetime(year+1,1,1)` for December, otherwise
`datetime(year, month+1, 1)`). -/
def monthUpper (y m : Nat) : CalDate :=
  if m == 12 then { year := y + 1, month := 1, day := 1 }
  else { year := y, month := m + 1, day := 1 }

/-- Does a closing date fall inside report month `m` of year `y`?  Model of
the half-open SQL range `closing_date >= datetime(y,m,1) AND closing_date <
monthUpper` (src/app.py lines 787-788). -/
def inReportMonth (y m : Nat) (cd : CalDate) : Bool :=
  dateLe { year := y, month := m, day := 1 } cd && dateLt cd (monthUpper y m)

/-- SQL comparison on a nullable `closing_date`: a NULL date satisfies no
range condition (NULL comparisons are not true), so such deals are excluded
from every month bucket. -/
def closingInMonth (y m : Nat) (d : Deal) : Bool :=
  match d.closing_date with
  | some cd => inReportMonth y m cd
  | none => false

/-- The closing date lies in calendar year `y` (this is the aggregation the
claim compares the twelve month buckets against; a deal without a closing
date lies in no year). -/
def closingInYear (y : Nat) (d : Deal) : Bool :=
  match d.closing_date with
  | some cd => cd.year == y
  | none => false

/-- The owner-and-status part of the reports filter (src/app.py lines
784-786): deals joined to the acting user's clients with status `closed`. -/
def dealBase (st : CRMState) (uid : Nat) (d : Deal) : Bool :=
  dealOwnedBy st d uid && d.status == "closed"

/-- The deals contributing to report month `m` (src/app.py lines 784-789). -/
def monthDeals (st : CRMState) (uid y m : Nat) : List Deal :=
  st.deals.filter (fun d => dealBase st uid d && closingInMonth y m d)

/-- One row of the reports page's `monthly_data` (src/app.py lines 794-799;
the month name string from `strftime` is kept as the month number). -/
structure MonthRow where
  month : Nat
  total_sales : Rat
  commission : Rat
  deal_count : Nat
deriving DecidableEq

/-- Model of the month loop of the `reports` route (src/app.py lines
774-799), parameterised by the year (`datetime.utcnow().year` in the code).
`total_sales` sums `final_price or offer_price or 0` (that is,
`Deal.price_value`), `commission` sums `Deal.commission_amount`. -/
def monthly_data (st : CRMState) (uid y : Nat) : List MonthRow :=
  (List.range 12).map (fun i =>
    let m := i + 1
    let ds := monthDeals st uid y m
    { month := m,
      total_sales := (ds.map Deal.price_value).sum,
      commission := (ds.map Deal.commission_amount).sum,
      deal_count := ds.length })

/-- The claim's year-level aggregate: the owner's closed deals whose closing
date lies in year `y`. -/
def yearClosedDeals (st : CRMState) (uid y : Nat) : List Deal :=
  st.deals.filter (fun d => dealBase st uid d && closingInYear y d)

/-- A deal's closing date, when present, is a plausible calendar date:
month in 1..12 and day at least 1 (true of every date Python's
`datetime.strptime` can produce, which is how the routes parse them). -/
def validClosingB (d : Deal) : Bool :=
  match d.closing_date with
  | some cd => decide (1 ≤ cd.month) && decide (cd.month ≤ 12) && decide (1 ≤ cd.day)
  | none => true

-- ===================== Claim C5: month buckets partition the year =====================

/-- For a valid calendar date and a month index in 1..12, membership in the
half-open month range is exactly "same year and same month". -/
lemma inReportMonth_iff (y m : Nat) (cd : CalDate) (_hm1 : 1 ≤ m)
    (_hm2 : m ≤ 12) (h1 : 1 ≤ cd.month) (h2 : cd.month ≤ 12)
    (h3 : 1 ≤ cd.day) :
    inReportMonth y m cd = true ↔ (cd.year = y ∧ cd.month = m) := by
  unfold inReportMonth monthUpper dateLe dateLt
  by_cases h12 : m = 12 <;> simp [h12] <;> omega

/-- Summing a month-membership indicator over the twelve report months
yields the year-membership indicator. -/
lemma month_indicator_sum (y : Nat) (cd : CalDate) (v : Rat)
    (h1 : 1 ≤ cd.month) (h2 : cd.month ≤ 12) (h3 : 1 ≤ cd.day) :
    ((List.range 12).map
      (fun i => if inReportMonth y (i + 1) cd then v else 0)).sum
      = (if cd.year == y then v else 0) := by
  have hbool : ∀ i, i < 12 →
      inReportMonth y (i + 1) cd = (cd.year == y && cd.month == i + 1) := by
    intro i hi
    have hiff := inReportMonth_iff y (i + 1) cd (by omega) (by omega) h1 h2 h3
    have h2iff : (cd.year == y && cd.month == i + 1) = true ↔
        (cd.year = y ∧ cd.month = i + 1) := by simp
    rw [Bool.eq_iff_iff, hiff, h2iff]
  have hmap : ((List.range 12).map
        (fun i => if inReportMonth y (i + 1) cd then v else 0))
      = ((List.range 12).map
        (fun i => if cd.year == y && cd.month == i + 1 then v else 0)) := by
    apply List.map_congr_left
    intro i hi
    rw [hbool i (List.mem_range.mp hi)]
  rw [hmap]
  rcases hy : (cd.year == y) with _ | _
  · simp [hy]
  · have hrange : List.range 12 = [0, 1, 2, 3, 4, 5, 6, 7, 8, 9, 10, 11] := rfl
    rw [hrange]
    rcases cd with ⟨cy, cm, cdy⟩
    simp only at h1 h2 hy ⊢
    interval_cases cm <;> simp [hy]

/-- Summing pointwise sums distributes over a list map. -/
lemma sum_map_add_rat {α : Type} (l : List α) (f g : α → Rat) :
    (l.map (fun x => f x + g x)).sum = (l.map f).sum + (l.map g).sum := by
  induction l with
  | nil => simp
  | cons a l ih =>
    simp [ih]
    ring

/-- Partition lemma: summing any deal-valued quantity over the twelve month
buckets equals summing it over the year bucket, for deals with plausible
closing dates. -/
lemma month_partition (base : Deal → Bool) (y : Nat) (f : Deal → Rat)
    (l : List Deal) (hv : ∀ d ∈ l, validClosingB d = true) :
    ((List.range 12).map (fun i =>
        ((l.filter (fun d => base d && closingInMonth y (i + 1) d)).map f).sum)).sum
      = ((l.filter (fun d => base d && closingInYear y d)).map f).sum := by
  induction l with
  | nil => simp
  | cons d l ih =>
    have hvd := hv d (by simp)
    have hvl : ∀ x ∈ l, validClosingB x = true := fun x hx => hv x (by simp [hx])
    have hsplit : ∀ (p : Deal → Bool),
        (((d :: l).filter p).map f).sum
          = (if p d then f d else 0) + ((l.filter p).map f).sum := by
      intro p
      rcases hp : p d with _ | _ <;> simp [List.filter_cons, hp]
    have hmap : ((List.range 12).map (fun i =>
          (((d :: l).filter (fun x => base x && closingInMonth y (i + 1) x)).map f).sum))
        = ((List.range 12).map (fun i =>
          (if base d && closingInMonth y (i + 1) d then f d else 0)
            + ((l.filter (fun x => base x && closingInMonth y (i + 1) x)).map f).sum)) := by
      apply List.map_congr_left
      intro i _
      exact hsplit _
    rw [hmap, sum_map_add_rat, ih hvl, hsplit]
    congr 1
    rcases hb : base d with _ | _
    · simp
    · simp only [Bool.true_and]
      rcases hcdate : d.closing_date with _ | cd
      · simp [closingInMonth, closingInYear, hcdate]
      · have hval : (1 ≤ cd.month ∧ cd.month ≤ 12) ∧ 1 ≤ cd.day := by
          simpa [validClosingB, hcdate] using hvd
        have hind := month_indicator_sum y cd (f d) hval.1.1 hval.1.2 hval.2
        simpa [closingInMonth, closingInYear, hcdate] using hind

/-- Claim C5: for every owner and year, the twelve per-month commission
sums of the reports page add up to the total commission over that owner's
closed deals closing in that year, and likewise the twelve monthly sales
totals add up to the yearly sum of `final_price or offer_price or 0`
(`Deal.price_value`).  The hypothesis asks only that stored closing dates
are plausible calendar dates. -/
theorem C5_monthly_breakdown (st : CRMState) (uid y : Nat)
    (hv : ∀ d ∈ st.deals, validClosingB d = true) :
    ((monthly_data st uid y).map MonthRow.commission).sum
        = ((yearClosedDeals st uid y).map Deal.commission_amount).sum ∧
    ((monthly_data st uid y).map MonthRow.total_sales).sum
        = ((yearClosedDeals st uid y).map Deal.price_value).sum := by
  constructor
  · have h := month_partition (fun d => dealBase st uid d) y
      Deal.commission_amount st.deals hv
    have hm : ((monthly_data st uid y).map MonthRow.commission)
        = ((List.range 12).map (fun i =>
            ((monthDeals st uid y (i + 1)).map Deal.commission_amount).sum)) := by
      simp [monthly_data, List.map_map, Function.comp]
    rw [hm]
    simpa [monthDeals, yearClosedDeals] using h
  · have h := month_partition (fun d => dealBase st uid d) y
      Deal.price_value st.deals hv
    have hm : ((monthly_data st uid y).map MonthRow.total_sales)
        = ((List.range 12).map (fun i =>
            ((monthDeals st uid y (i + 1)).map Deal.price_value).sum)) := by
      simp [monthly_data, List.map_map, Function.comp]
    rw [hm]
    simpa [monthDeals, yearClosedDeals] using h

/-- A deal closed in March 2024 at 210000 final price. -/
def dealMar : Deal :=
  { id := 1, client_id := 1, property_id := 1, status := "closed",
    offer_price := some 200000, final_price := some 210000,
    commission_rate := 3,
    closing_date := some { year := 2024, month := 3, day := 15 },
    notes := "" }

/-- A deal closed in July 2024 on its 100000 offer price. -/
def dealJul : Deal :=
  { id := 2, client_id := 1, property_id := 1, status := "closed",
    offer_price := some 100000, final_price := none, commission_rate := 3,
    closing_date := some { year := 2024, month := 7, day := 1 },
    notes := "" }

/-- Concrete database for the reports witness. -/
def stC5 : CRMState :=
  { users := [agentX], clients := [janeDoe], properties := [propOne],
    deals := [dealMar, dealJul], interactions := [], tasks := [],
    showings := [], activities := [] }

/-- Witness for `C5_monthly_breakdown` on the two-deal database for year
2024, discharging the date-validity hypothesis by evaluation. -/
theorem C5_monthly_breakdown_witness :
    (∀ d ∈ stC5.deals, validClosingB d = true) ∧
    ((monthly_data stC5 1 2024).map MonthRow.commission).sum
        = ((yearClosedDeals stC5 1 2024).map Deal.commission_amount).sum ∧
    ((monthly_data stC5 1 2024).map MonthRow.total_sales).sum
        = ((yearClosedDeals stC5 1 2024).map Deal.price_value).sum := by
  refine ⟨by decide, ?_, ?_⟩
  · exact (C5_monthly_breakdown stC5 1 2024 (by decide)).1
  · exact (C5_monthly_breakdown stC5 1 2024 (by decide)).2

-- ===================== Staff management routes (admin only) =====================

/-- Form fields read by `add_staff` / `edit_staff` (src/app.py lines
905-950 and 997-1038).  `new_password` models the optional password field
of the edit form (`if new_password:` — absent or empty means unchanged);
`is_active_flag` models the edit form's checkbox.  The randomly chosen
avatar color is elided. -/
structure StaffForm where
  username : String
  email : String
  password : String
  role : String
  first_name : String
  last_name : String
  phone : String
  position : String
  hire_date : Option CalDate
  commission_rate : Rat
  is_active_flag : Bool
  new_password : Option String
deriving DecidableEq

/-- Model of the POST branch of `add_staff` (src/app.py lines 905-950),
including the `@admin_required` decorator (lines 829-838).  Password
hashing (`werkzeug.generate_password_hash`) is abstracted as the `hash`
parameter.  Note: NO `log_activity` call appears in this route. -/
def add_staff (hash : String → String) (st : CRMState) (actor : User)
    (f : StaffForm) : CRMState × Outcome :=
  if actor.role != "admin" then (st, .denied)
  else if st.users.any (fun u => u.username == f.username) then
    (st, .error ("Username already exists"))
  else if st.users.any (fun u => u.email == f.email) then
    (st, .error ("Email already registered"))
  else
    let uid := freshId (st.users.map (fun u => u.id))
    ({ st with users := st.users ++
        [{ id := uid, username := f.username, email := f.email,
           password_hash := hash f.password, role := f.role,
           first_name := f.first_name, last_name := f.last_name,
           phone := f.phone, position := f.position,
           hire_date := f.hire_date,
           commission_rate := f.commission_rate, is_active := true,
           created_by := some actor.id }] }, .ok)

/-- Model of the POST branch of `edit_staff` (src/app.py lines 997-1038):
admin gate, duplicate checks only when the username/email changed, then an
in-place update; the password changes only when `new_password` is provided.
No `log_activity` call. -/
def edit_staff (hash : String → String) (st : CRMState) (actor : User)
    (id : Nat) (f : StaffForm) : CRMState × Outcome :=
  if actor.role != "admin" then (st, .denied)
  else match st.users.find? (fun u => u.id == id) with
  | none => (st, .notFound)
  | some member =>
    if f.username != member.username &&
        st.users.any (fun u => u.username == f.username) then
      (st, .error ("Username already exists"))
    else if f.email != member.email &&
        st.users.any (fun u => u.email == f.email) then
      (st, .error ("Email already registered"))
    else
      ({ st with users := st.users.map (fun u =>
          if u.id == id then
            (let u1 := { u with
                username := f.username, email := f.email,
                role := f.role, first_name := f.first_name,
                last_name := f.last_name, phone := f.phone,
                position := f.position, hire_date := f.hire_date,
                commission_rate := f.commission_rate,
                is_active := f.is_active_flag }
             match f.new_password with
             | some pw => { u1 with password_hash := hash pw }
             | none => u1)
          else u) }, .ok)

/-- Model of `toggle_staff_status` (src/app.py lines 1041-1052): admin
gate, then flip `is_active` unconditionally.  No `log_activity` call. -/
def toggle_staff_status (st : CRMState) (actor : User) (id : Nat) :
    CRMState × Outcome :=
  if actor.role != "admin" then (st, .denied)
  else match st.users.find? (fun u => u.id == id) with
  | none => (st, .notFound)
  | some _ =>
    ({ st with users := st.users.map (fun u =>
        if u.id == id then { u with is_active := !u.is_active } else u) },
      .ok)

/-- Model of `delete_staff` (src/app.py lines 1055-1077): admin gate;
refuse deleting one's own account; refuse (with the deactivate-instead
message) when the target still owns any client or property.  Past those
checks the commit flushes the delete: the un-cascaded `User.activities`
backref (line 184) would null `Activity.user_id`, which is `nullable=False`
(line 174), so a member with any audit rows raises IntegrityError and
nothing changes (`serverError`); otherwise the user row is deleted and the
member's tasks get their nullable `Task.user_id` (line 155) nulled.  No
`log_activity` call on any path. -/
def delete_staff (st : CRMState) (actor : User) (id : Nat) :
    CRMState × Outcome :=
  if actor.role != "admin" then (st, .denied)
  else match st.users.find? (fun u => u.id == id) with
  | none => (st, .notFound)
  | some member =>
    if member.id == actor.id then
      (st, .error ("You cannot delete your own account."))
    else if st.clients.any (fun c => c.agent_id == member.id) ||
        st.properties.any (fun p => p.agent_id == member.id) then
      (st, .error ("Cannot delete staff member with assigned clients or properties. Deactivate instead."))
    else if st.activities.any (fun a => a.user_id == member.id) then
      (st, .serverError)
    else
      ({ st with
          users := st.users.filter (fun u => u.id != id),
          tasks := st.tasks.map (fun t =>
            if t.user_id == some member.id then { t with user_id := none }
            else t) }, .ok)

/-- Model of `reset_staff_password` (src/app.py lines 1080-1095): admin
gate; refuse passwords shorter than 6 characters (the missing-password case
has length 0 and lands in the same branch); otherwise store the new hash.
No `log_activity` call. -/
def reset_staff_password (hash : String → String) (st : CRMState)
    (actor : User) (id : Nat) (pw : String) : CRMState × Outcome :=
  if actor.role != "admin" then (st, .denied)
  else match st.users.find? (fun u => u.id == id) with
  | none => (st, .notFound)
  | some _ =>
    if pw.length < 6 then
      (st, .error ("Password must be at least 6 characters."))
    else
      ({ st with users := st.users.map (fun u =>
          if u.id == id then { u with password_hash := hash pw } else u) },
        .ok)

-- ===================== Claim C6: staff deletion guard =====================

/-- Claim C6: deleting a staff account fails with an error outcome and
leaves the state unchanged whenever the target still owns a client or a
property, or is the acting admin itself; deactivating such an account via
the toggle route instead succeeds (an active account becomes inactive) and
touches neither the audit log nor any other table. -/
theorem C6_staff_delete_guard (st : CRMState) (actor : User) (id : Nat)
    (member : User) (hadmin : actor.role = "admin")
    (hfind : st.users.find? (fun u => u.id == id) = some member) :
    ((st.clients.any (fun c => c.agent_id == member.id) = true ∨
      st.properties.any (fun p => p.agent_id == member.id) = true ∨
      member.id = actor.id) →
      (delete_staff st actor id).1 = st ∧
      (∃ msg, (delete_staff st actor id).2 = Outcome.error msg)) ∧
    (member.is_active = true →
      (toggle_staff_status st actor id).2 = Outcome.ok ∧
      ({ member with is_active := false })
        ∈ (toggle_staff_status st actor id).1.users ∧
      (toggle_staff_status st actor id).1.activities = st.activities ∧
      (toggle_staff_status st actor id).1.clients = st.clients ∧
      (toggle_staff_status st actor id).1.properties = st.properties) := by
  have hg : (actor.role != "admin") = false := by simp [hadmin]
  constructor
  · intro h
    rcases hself : (member.id == actor.id) with _ | _
    · have howns : (st.clients.any (fun c => c.agent_id == member.id) ||
          st.properties.any (fun p => p.agent_id == member.id)) = true := by
        rcases h with h | h | h
        · simp [h]
        · simp [h]
        · exfalso
          have hx : (member.id == actor.id) = true := by simp [h]
          rw [hx] at hself
          cases hself
      constructor
      · simp [delete_staff, hg, hfind, hself, howns]
      · refine ⟨("Cannot delete staff member with assigned clients or properties. Deactivate instead."), ?_⟩
        simp [delete_staff, hg, hfind, hself, howns]
    · constructor
      · simp [delete_staff, hg, hfind, hself]
      · refine ⟨("You cannot delete your own account."), ?_⟩
        simp [delete_staff, hg, hfind, hself]
  · intro hact
    have hmem := List.mem_of_find?_eq_some hfind
    have hid : (member.id == id) = true := by
      have hx := List.find?_some hfind
      simpa using hx
    refine ⟨?_, ?_, ?_, ?_, ?_⟩
    · simp [toggle_staff_status, hg, hfind]
    · simp only [toggle_staff_status, hg, Bool.false_eq_true, if_false,
        hfind]
      refine List.mem_map.mpr ⟨member, hmem, ?_⟩
      simp [hid, hact]
    · simp [toggle_staff_status, hg, hfind]
    · simp [toggle_staff_status, hg, hfind]
    · simp [toggle_staff_status, hg, hfind]

/-- Witness for `C6_staff_delete_guard`: on the concrete database, the
admin cannot delete `agentX` (who owns Jane Doe and the Maple House) — the
state is untouched and an error is flashed — while toggling deactivates
the account without touching the audit log. -/
theorem C6_staff_delete_guard_witness :
    ((delete_staff stC3 adminZ 1).1 = stC3 ∧
      (∃ msg, (delete_staff stC3 adminZ 1).2 = Outcome.error msg)) ∧
    ((toggle_staff_status stC3 adminZ 1).2 = Outcome.ok ∧
      ({ agentX with is_active := false })
        ∈ (toggle_staff_status stC3 adminZ 1).1.users ∧
      (toggle_staff_status stC3 adminZ 1).1.activities = stC3.activities) := by
  have h := C6_staff_delete_guard stC3 adminZ 1 agentX rfl rfl
  have h1 := h.1 (Or.inl (by decide))
  have h2 := h.2 rfl
  exact ⟨⟨h1.1, h1.2⟩, ⟨h2.1, h2.2.1, h2.2.2.1⟩⟩

-- ===================== Claim C10: staff/interaction ops never audit =====================

/-- Claim C10: the staff-management routes (`add_staff`, `edit_staff`,
`toggle_staff_status`, `reset_staff_password`) and `add_interaction` never
touch the audit log — none of them calls `log_activity` in src/app.py, so
the activities table is unchanged on every path (in particular on every
successful one, which is what the claim states). -/
theorem C10_no_audit_record (hash : String → String) (st : CRMState)
    (actor : User) (addf editf : StaffForm) (id rid iid cid : Nat)
    (pw : String) (itf : InteractionForm) :
    (add_staff hash st actor addf).1.activities = st.activities ∧
    (edit_staff hash st actor id editf).1.activities = st.activities ∧
    (toggle_staff_status st actor iid).1.activities = st.activities ∧
    (reset_staff_password hash st actor rid pw).1.activities = st.activities ∧
    (add_interaction st actor cid itf).1.activities = st.activities := by
  refine ⟨?_, ?_, ?_, ?_, ?_⟩
  · unfold add_staff
    repeat' split
    all_goals rfl
  · unfold edit_staff
    repeat' split
    all_goals rfl
  · unfold toggle_staff_status
    repeat' split
    all_goals rfl
  · unfold reset_staff_password
    repeat' split
    all_goals rfl
  · unfold add_interaction
    repeat' split
    all_goals rfl

-- ===================== Claim C7: cascade deletes =====================

/-- Claim C7: a SUCCESSFUL delete of a Client removes exactly that client
row plus every Interaction belonging to it (the `all, delete-orphan`
cascade of src/app.py line 83) and no other rows; a successful delete of a
Property removes exactly that property row plus its Showings (cascade of
line 116) and no other rows.  A delete of a client/property that a Deal
still references never succeeds at all: the flush nulls the deal's
NOT NULL foreign key (lines 121-122), the commit raises IntegrityError and
the state is unchanged. -/
theorem C7_cascade_deletes (st : CRMState) (actor : User) (cid pid : Nat) :
    ((delete_client st actor cid).2 = Outcome.ok →
      (delete_client st actor cid).1.clients
          = st.clients.filter (fun x => x.id != cid) ∧
      (delete_client st actor cid).1.interactions
          = st.interactions.filter (fun i => i.client_id != cid) ∧
      (delete_client st actor cid).1.properties = st.properties ∧
      (delete_client st actor cid).1.showings = st.showings ∧
      (delete_client st actor cid).1.deals = st.deals ∧
      (delete_client st actor cid).1.tasks = st.tasks ∧
      (delete_client st actor cid).1.users = st.users) ∧
    ((delete_client st actor cid).2 = Outcome.serverError →
      (delete_client st actor cid).1 = st ∧
      st.deals.any (fun d => d.client_id == cid) = true) ∧
    ((delete_property st actor pid).2 = Outcome.ok →
      (delete_property st actor pid).1.showings
          = st.showings.filter (fun s => s.property_id != pid) ∧
      (delete_property st actor pid).1.properties
          = st.properties.filter (fun x => x.id != pid) ∧
      (delete_property st actor pid).1.clients = st.clients ∧
      (delete_property st actor pid).1.interactions = st.interactions ∧
      (delete_property st actor pid).1.deals = st.deals ∧
      (delete_property st actor pid).1.tasks = st.tasks ∧
      (delete_property st actor pid).1.users = st.users) ∧
    ((delete_property st actor pid).2 = Outcome.serverError →
      (delete_property st actor pid).1 = st ∧
      st.deals.any (fun d => d.property_id == pid) = true) := by
  refine ⟨?_, ?_, ?_, ?_⟩
  · intro h
    rcases hf : st.clients.find? (fun x => x.id == cid) with _ | c
    · simp [delete_client, hf] at h
    · cases hb : c.agent_id != actor.id
      · cases hd : st.deals.any (fun d => d.client_id == cid)
        · refine ⟨?_, ?_, ?_, ?_, ?_, ?_, ?_⟩ <;>
            simp [delete_client, log_activity, hf, hb, hd]
        · simp [delete_client, hf, hb, hd] at h
      · simp [delete_client, hf, hb] at h
  · intro h
    rcases hf : st.clients.find? (fun x => x.id == cid) with _ | c
    · simp [delete_client, hf] at h
    · cases hb : c.agent_id != actor.id
      · cases hd : st.deals.any (fun d => d.client_id == cid)
        · simp [delete_client, hf, hb, hd] at h
        · exact ⟨by simp [delete_client, hf, hb, hd], rfl⟩
      · simp [delete_client, hf, hb] at h
  · intro h
    rcases hf : st.properties.find? (fun x => x.id == pid) with _ | p
    · simp [delete_property, hf] at h
    · cases hb : p.agent_id != actor.id
      · cases hd : st.deals.any (fun d => d.property_id == pid)
        · refine ⟨?_, ?_, ?_, ?_, ?_, ?_, ?_⟩ <;>
            simp [delete_property, log_activity, hf, hb, hd]
        · simp [delete_property, hf, hb, hd] at h
      · simp [delete_property, hf, hb] at h
  · intro h
    rcases hf : st.properties.find? (fun x => x.id == pid) with _ | p
    · simp [delete_property, hf] at h
    · cases hb : p.agent_id != actor.id
      · cases hd : st.deals.any (fun d => d.property_id == pid)
        · simp [delete_property, hf, hb, hd] at h
        · exact ⟨by simp [delete_property, hf, hb, hd], rfl⟩
      · simp [delete_property, hf, hb] at h

/-- Witness for `C7_cascade_deletes`: on the deal-free database the
deletes succeed — Jane Doe's interaction is cascaded away and the Maple
House's showing likewise, other tables untouched — while on the database
where `dealOne` references both rows the same deletes raise IntegrityError
and change nothing. -/
theorem C7_cascade_deletes_witness :
    (delete_client stNoDeals agentX 1).2 = Outcome.ok ∧
    (delete_client stNoDeals agentX 1).1.interactions
        = stNoDeals.interactions.filter (fun i => i.client_id != 1) ∧
    (delete_property stNoDeals agentX 1).1.showings
        = stNoDeals.showings.filter (fun s => s.property_id != 1) ∧
    (delete_property stNoDeals agentX 1).1.clients = stNoDeals.clients ∧
    (delete_client stC3 agentX 1).1 = stC3 ∧
    (delete_property stC3 agentX 1).1 = stC3 := by
  have h1 := C7_cascade_deletes stNoDeals agentX 1 1
  have h2 := C7_cascade_deletes stC3 agentX 1 1
  exact ⟨rfl, (h1.1 rfl).2.1, (h1.2.2.1 rfl).1, (h1.2.2.1 rfl).2.2.1,
    (h2.2.1 rfl).1, (h2.2.2.2 rfl).1⟩

-- ===================== Login route =====================

/-- Model of `User.full_name` (src/app.py lines 52-56): the joined name
when both parts are non-empty (Python truthiness on strings), otherwise the
username. -/
def User.full_name (u : User) : String :=
  if u.first_name != "" && u.last_name != "" then
    u.first_name ++ (" ") ++ u.last_name
  else u.username

/-- Result of the login route: a logged-in user, or the single generic
failure flash. -/
inductive LoginResult where
  | success (u : User)
  | failure (msg : String)
deriving DecidableEq

/-- Model of the POST branch of `login` (src/app.py lines 247-273): look
the username up; verify the password against the stored hash (`hash`
abstracts `werkzeug`'s one-way hash, so `check_password` is modelled as
comparing the stored hash with the hash of the submitted password); on
success append the `login` Activity and succeed; on EITHER failure — the
username not existing, or the password not matching — flash the same
`Invalid username or password` message with no state change. -/
def login (hash : String → String) (st : CRMState)
    (username password : String) : CRMState × LoginResult :=
  match st.users.find? (fun u => u.username == username) with
  | none => (st, .failure ("Invalid username or password"))
  | some u =>
    if u.password_hash == hash password then
      ({ st with activities := st.activities ++
          [{ id := freshId (st.activities.map (fun a => a.id)),
             user_id := u.id, action := "login",
             entity_type := some ("session"), entity_id := none,
             entity_name := some (u.full_name ++ (" logged in")),
             details := none }] }, .success u)
    else (st, .failure ("Invalid username or password"))

-- ===================== Claim C8: failures are indistinguishable =====================

/-- Claim C8: an authentication attempt with an unknown username and one
with a known username but wrong password produce literally identical
observable results — the same single generic failure value and an unchanged
state — so no output of the login operation distinguishes the two causes. -/
theorem C8_login_indistinguishable (hash : String → String) (st : CRMState)
    (un1 pw1 un2 pw2 : String) (u : User)
    (h1 : st.users.find? (fun x => x.username == un1) = none)
    (h2 : st.users.find? (fun x => x.username == un2) = some u)
    (h3 : u.password_hash ≠ hash pw2) :
    login hash st un1 pw1
        = (st, LoginResult.failure ("Invalid username or password")) ∧
    login hash st un2 pw2
        = (st, LoginResult.failure ("Invalid username or password")) ∧
    login hash st un1 pw1 = login hash st un2 pw2 := by
  have hb : (u.password_hash == hash pw2) = false := by simp [h3]
  refine ⟨?_, ?_, ?_⟩ <;> simp [login, h1, h2, hb]

/-- Witness for `C8_login_indistinguishable` with the identity as the
stand-in hash: `ghost` is unknown, `agentx` exists but `bad` is not the
password. -/
theorem C8_login_indistinguishable_witness :
    login (fun s => s) stC3 ("ghost") ("pw")
        = (stC3, LoginResult.failure ("Invalid username or password")) ∧
    login (fun s => s) stC3 ("agentx") ("bad")
        = (stC3, LoginResult.failure ("Invalid username or password")) := by
  have h := C8_login_indistinguishable (fun s => s) stC3 ("ghost") ("pw")
    ("agentx") ("bad") agentX rfl rfl (by decide)
  exact ⟨h.1, h.2.1⟩

-- ===================== Dashboard upcoming tasks =====================

/-- The ordering key of `order_by(Task.due_date)` in SQLite: ascending with
NULL due dates sorting BEFORE every non-NULL one (SQLite places NULLs first
in ascending order). -/
def dueLeB (a b : TaskItem) : Bool :=
  match a.due_date, b.due_date with
  | none, _ => true
  | some _, none => false
  | some x, some y => decide (x ≤ y)

/-- Propositional form of `dueLeB`, used as the sort relation. -/
def dueLe (a b : TaskItem) : Prop := dueLeB a b = true

instance : DecidableRel dueLe := fun a b => by
  unfold dueLe
  infer_instance

instance : IsTotal TaskItem dueLe where
  total := by
    intro a b
    unfold dueLe dueLeB
    rcases ha : a.due_date with _ | x <;> rcases hb : b.due_date with _ | y
    all_goals simp [ha, hb]
    all_goals omega

instance : IsTrans TaskItem dueLe where
  trans := by
    intro a b c hab hbc
    unfold dueLe dueLeB at hab hbc ⊢
    rcases ha : a.due_date with _ | x <;> rcases hb : b.due_date with _ | y <;>
      rcases hc : c.due_date with _ | z
    all_goals simp [ha, hb, hc] at hab hbc ⊢
    all_goals omega

/-- Model of the dashboard's upcoming-tasks query (src/app.py lines
310-313): the acting user's tasks with `status != 'completed'` (note: NOT
only `pending` — `in_progress` passes too), ordered by `due_date` ascending
(stable sort; SQLite sorts NULL due dates first), first 5. -/
def upcoming_tasks (st : CRMState) (uid : Nat) : List TaskItem :=
  (List.insertionSort dueLe (st.tasks.filter
    (fun t => t.user_id == some uid && t.status != "completed"))).take 5

-- ===================== Claim C9: upcoming tasks =====================

/-- An in-progress task with no due date, assigned to user 1. -/
def taskInProg : TaskItem :=
  { id := 1, title := "Follow up lead", description := "",
    priority := "medium", status := "in_progress", due_date := none,
    completed_at := none, user_id := some 1 }

/-- A pending task due at time 100, assigned to user 1. -/
def taskPend : TaskItem :=
  { id := 2, title := "Prepare viewing", description := "",
    priority := "high", status := "pending", due_date := some 100,
    completed_at := none, user_id := some 1 }

/-- Concrete database for the dashboard counterexample. -/
def stC9 : CRMState :=
  { users := [agentX], clients := [], properties := [], deals := [],
    interactions := [], tasks := [taskInProg, taskPend], showings := [],
    activities := [] }

/-- Claim C9 is false on the code, twice over: the dashboard query keeps
every task with `status != 'completed'` (src/app.py line 312), so the
in-progress task appears even though it is not `pending`; and the SQLite
ascending sort places the task WITHOUT a due date before the one with one,
not after. -/
theorem C9_counterexample :
    upcoming_tasks stC9 1 = [taskInProg, taskPend] ∧
    taskInProg.status = "in_progress" ∧
    taskInProg.due_date = none ∧ taskPend.due_date = some 100 ∧
    ¬ (∀ t ∈ upcoming_tasks stC9 1, t.status = "pending") := by
  refine ⟨by decide, rfl, rfl, rfl, by decide⟩

/-- Claim C9 (amended): the dashboard's upcoming-tasks list holds at most
5 tasks, each owned by the acting user and with status other than
`completed` (so `pending` or `in_progress`), ordered by due date ascending
with tasks lacking a due date placed BEFORE all tasks that have one. -/
theorem C9_upcoming_tasks_amended (st : CRMState) (uid : Nat) :
    (upcoming_tasks st uid).length ≤ 5 ∧
    (∀ t ∈ upcoming_tasks st uid,
      t.user_id = some uid ∧ t.status ≠ "completed") ∧
    (upcoming_tasks st uid).Pairwise dueLe := by
  refine ⟨?_, ?_, ?_⟩
  · exact List.length_take_le 5
      (List.insertionSort dueLe (st.tasks.filter
        (fun t => t.user_id == some uid && t.status != "completed")))
  · intro t ht
    have ht1 : t ∈ List.insertionSort dueLe (st.tasks.filter
        (fun t => t.user_id == some uid && t.status != "completed")) :=
      (List.take_sublist 5 _).subset ht
    have ht2 := (List.perm_insertionSort dueLe _).mem_iff.mp ht1
    have hb := (List.mem_filter.mp ht2).2
    have hsplit : (t.user_id == some uid) = true ∧
        (t.status != "completed") = true := by
      simpa [Bool.and_eq_true] using hb
    constructor
    · simpa using hsplit.1
    · simpa [bne_iff_ne] using hsplit.2
  · exact List.Pairwise.sublist (List.take_sublist 5 _)
      (List.sorted_insertionSort dueLe _)

/-- Witness for `C9_upcoming_tasks_amended` on the concrete database,
discharging the membership hypothesis for the in-progress task. -/
theorem C9_upcoming_tasks_amended_witness :
    (upcoming_tasks stC9 1).length ≤ 5 ∧
    (taskInProg.user_id = some 1 ∧ taskInProg.status ≠ "completed") ∧
    (upcoming_tasks stC9 1).Pairwise dueLe := by
  refine ⟨(C9_upcoming_tasks_amended stC9 1).1, ?_,
    (C9_upcoming_tasks_amended stC9 1).2.2⟩
  exact (C9_upcoming_tasks_amended stC9 1).2.1 taskInProg (by decide)
